import Mathlib

/-!
The mutating admission handler of partitioner-webhook.

A shallow embedding of `webhook.go` (`ServeHTTP`, `mutate`, `patchOperation`) and
properties of the JSON Patch it builds from the three namespace annotations.

Go strings are modelled by `String`.  The only string operations the handler
performs are `strings.Split` on the one-byte separators `,` and `=`, equality
with a constant and `len(s) == 0`; on UTF-8 text these agree with the same
operations on code points.
-/

set_option autoImplicit false

namespace PartitionerWebhook

/-! ## Go library operations used by the handler -/

/-- Go `strings.Split(s, sep)` for a one-character separator, on the characters of `s`:
the pieces between consecutive separators, empty pieces included; the empty
string yields one empty piece. -/
def splitChars (sep : Char) : List Char → List (List Char)
  | [] => [[]]
  | c :: cs =>
    if c = sep then [] :: splitChars sep cs
    else
      match splitChars sep cs with
      | [] => [[c]]
      | t :: ts => (c :: t) :: ts

/-- Go `strings.Split(s, string(sep))`. -/
def Split (s : String) (sep : Char) : List String :=
  (splitChars sep s.data).map String.mk

/-- A Go `map[string]string`, as the list of its entries.  A key is looked up at
its first entry; `GoMap.store` keeps at most one entry per key it writes. -/
abbrev GoMap := List (String × String)

/-- Go `v, ok := m[k]`: `none` stands for `ok = false`. -/
def GoMap.lookup : GoMap → String → Option String
  | [], _ => none
  | (k', v) :: r, k => if k' = k then some v else GoMap.lookup r k

/-- Go `m[k] = v`. -/
def GoMap.store : GoMap → String → String → GoMap
  | [], k, v => [(k, v)]
  | (k', v') :: r, k, v => if k' = k then (k, v) :: r else (k', v') :: GoMap.store r k v

/-! ## Kubernetes API types, restricted to the fields the handler reads or writes -/

/-- The type `metav1.LabelSelectorRequirement`. -/
structure LabelSelectorRequirement where
  Key : String
  Operator : String
  Values : List String
  deriving DecidableEq, Repr

/-- The type `metav1.LabelSelector`; a nil `MatchLabels` map is `none`. -/
structure LabelSelector where
  MatchLabels : Option GoMap
  MatchExpressions : List LabelSelectorRequirement := []
  deriving DecidableEq, Repr

/-- The type `corev1.PodAffinityTerm`. -/
structure PodAffinityTerm where
  LabelSelector : Option LabelSelector := none
  Namespaces : List String := []
  TopologyKey : String
  deriving DecidableEq, Repr

/-- The type `corev1.TopologySpreadConstraint`. -/
structure TopologySpreadConstraint where
  MaxSkew : Int
  TopologyKey : String
  WhenUnsatisfiable : String
  LabelSelector : Option LabelSelector
  deriving DecidableEq, Repr

/-- The constant `corev1.DoNotSchedule`. -/
def DoNotSchedule : String := "DoNotSchedule"

/-- The type `corev1.PodAntiAffinity`; a nil slice is `none`. -/
structure PodAntiAffinity where
  RequiredDuringSchedulingIgnoredDuringExecution : Option (List PodAffinityTerm)
  deriving DecidableEq, Repr

/-- The type `corev1.Affinity`; a nil pointer is `none`. -/
structure Affinity where
  PodAntiAffinity : Option PodAntiAffinity
  deriving DecidableEq, Repr

/-- The type `corev1.PodSpec`. -/
structure PodSpec where
  NodeSelector : Option GoMap
  Affinity : Option Affinity
  TopologySpreadConstraints : Option (List TopologySpreadConstraint)
  deriving DecidableEq, Repr

/-- The type `corev1.Pod`: `Labels` is `pod.ObjectMeta.Labels`. -/
structure Pod where
  Labels : Option GoMap
  Spec : PodSpec
  deriving DecidableEq, Repr

/-- The type `corev1.Namespace`: `Annotations` is `namespace.ObjectMeta.Annotations`
(reading a nil map behaves as reading an empty one). -/
structure Namespace where
  Annotations : GoMap
  deriving DecidableEq, Repr

/-! ## webhook.go -/

/-- Namespace annotation holding the anti-affinity topology keys. -/
def AntiAffinityAnnotation : String := "kojedz.in/podantiaffinitytopologykeys"

/-- Namespace annotation holding the node selectors, `label=match[,label=match]`. -/
def NodeSelectorAnnotation : String := "kojedz.in/nodeselectors"

/-- Namespace annotation holding the topology keys of the spread constraints. -/
def TopologySpreadConstraintAnnotation : String :=
  "kojedz.in/topologyspreadconstrainttopologykeys"

/-- The values `mutate` stores in `patchOperation.Value` (an `interface{}`). -/
inductive PatchValue where
  /-- a `map[string]string` -/
  | stringMap (m : GoMap)
  /-- the value `make(map[string]interface{})` -/
  | emptyObject
  /-- the value `make([]interface{}, 0)` -/
  | emptyArray
  /-- a `*corev1.PodAffinityTerm` -/
  | podAffinityTerm (t : PodAffinityTerm)
  /-- a `*corev1.TopologySpreadConstraint` -/
  | topologySpreadConstraint (c : TopologySpreadConstraint)
  deriving DecidableEq, Repr

/-- The struct `patchOperation`. -/
structure patchOperation where
  Op : String
  Path : String
  Value : PatchValue
  deriving DecidableEq, Repr

/-- Lines 164-177 of `mutate`, the loop body: one selector of the node selector
annotation is stored into the map when it splits into exactly two parts at `=`. -/
def storeSelector (nodeSelector : GoMap) (selector : String) : GoMap :=
  match Split selector '=' with
  | [k, v] => GoMap.store nodeSelector k v
  | _ => nodeSelector

/-- Lines 205-220 of `mutate`, the loop body: an empty topology key is skipped,
any other appends one affinity term. -/
def appendAffinityTerm (pod : Pod) (patches : List patchOperation) (topologyKey : String) :
    List patchOperation :=
  if topologyKey.length = 0 then patches
  else
    patches ++ [{
      Op := "add"
      Path := "/spec/affinity/podAntiAffinity/requiredDuringSchedulingIgnoredDuringExecution/-"
      Value := .podAffinityTerm {
        LabelSelector := some { MatchLabels := pod.Labels }
        TopologyKey := topologyKey } }]

/-- Lines 233-250 of `mutate`, the loop body: an empty topology key is skipped,
any other appends one spread constraint. -/
def appendSpreadConstraint (pod : Pod) (patches : List patchOperation) (topologyKey : String) :
    List patchOperation :=
  if topologyKey.length = 0 then patches
  else
    patches ++ [{
      Op := "add"
      Path := "/spec/topologySpreadConstraints/-"
      Value := .topologySpreadConstraint {
        MaxSkew := 1
        TopologyKey := topologyKey
        LabelSelector := some { MatchLabels := pod.Labels }
        WhenUnsatisfiable := DoNotSchedule } }]

/-- Lines 157-177 of `mutate`: the node selector pass. -/
def nodeSelectorPass (pod : Pod) (ns : Namespace) (patches : List patchOperation) :
    List patchOperation :=
  let nodeSelector : GoMap :=
    match pod.Spec.NodeSelector with
    | none => []
    | some m => m
  match GoMap.lookup ns.Annotations NodeSelectorAnnotation with
  | some value =>
    let nodeSelector := (Split value ',').foldl storeSelector nodeSelector
    patches ++ [{ Op := "replace", Path := "/spec/nodeSelector", Value := .stringMap nodeSelector }]
  | none => patches

/-- The test `pod.Spec.Affinity == nil || pod.Spec.Affinity.PodAntiAffinity == nil`. -/
def podAntiAffinityIsNil (pod : Pod) : Bool :=
  match pod.Spec.Affinity with
  | none => true
  | some a =>
    match a.PodAntiAffinity with
    | none => true
    | some _ => false

/-- The test of line 197: the affinity, its `PodAntiAffinity` or the latter's
`RequiredDuringSchedulingIgnoredDuringExecution` is nil. -/
def requiredTermsIsNil (pod : Pod) : Bool :=
  match pod.Spec.Affinity with
  | none => true
  | some a =>
    match a.PodAntiAffinity with
    | none => true
    | some p =>
      match p.RequiredDuringSchedulingIgnoredDuringExecution with
      | none => true
      | some _ => false

/-- Lines 179-221 of `mutate`: the anti-affinity pass. -/
def antiAffinityPass (pod : Pod) (ns : Namespace) (patches : List patchOperation) :
    List patchOperation :=
  match GoMap.lookup ns.Annotations AntiAffinityAnnotation with
  | some value =>
    let patches :=
      if pod.Spec.Affinity = none then
        patches ++ [{ Op := "add", Path := "/spec/affinity", Value := .emptyObject }]
      else patches
    let patches :=
      if podAntiAffinityIsNil pod then
        patches ++ [{ Op := "add", Path := "/spec/affinity/podAntiAffinity", Value := .emptyObject }]
      else patches
    let patches :=
      if requiredTermsIsNil pod then
        patches ++ [{
          Op := "add"
          Path := "/spec/affinity/podAntiAffinity/requiredDuringSchedulingIgnoredDuringExecution"
          Value := .emptyArray }]
      else patches
    (Split value ',').foldl (appendAffinityTerm pod) patches
  | none => patches

/-- Lines 223-251 of `mutate`: the topology spread pass. -/
def topologySpreadPass (pod : Pod) (ns : Namespace) (patches : List patchOperation) :
    List patchOperation :=
  match GoMap.lookup ns.Annotations TopologySpreadConstraintAnnotation with
  | some value =>
    let patches :=
      if pod.Spec.TopologySpreadConstraints = none then
        patches ++ [{ Op := "add", Path := "/spec/topologySpreadConstraints", Value := .emptyArray }]
      else patches
    (Split value ',').foldl (appendSpreadConstraint pod) patches
  | none => patches

/-- Lines 157-251 of `mutate`: the slice `patches` once the three passes have run,
starting from the nil slice. -/
def buildPatches (pod : Pod) (ns : Namespace) : List patchOperation :=
  topologySpreadPass pod ns (antiAffinityPass pod ns (nodeSelectorPass pod ns []))

/-! ## The admission envelope -/

/-- The type `metav1.GroupVersionKind`. -/
structure GroupVersionKind where
  Group : String := ""
  Version : String := ""
  Kind : String
  deriving DecidableEq, Repr

/-- The type `runtime.RawExtension`: the serialized object. -/
structure RawExtension where
  Raw : String
  deriving DecidableEq, Repr

/-- The type `v1.AdmissionRequest`, with the fields the handler reads. -/
structure AdmissionRequest where
  UID : String
  Kind : GroupVersionKind
  Namespace : String
  Object : RawExtension
  deriving DecidableEq, Repr

/-- The type `metav1.Status`. -/
structure Status where
  Message : String
  deriving DecidableEq, Repr

/-- The constant `v1.PatchTypeJSONPatch`. -/
def PatchTypeJSONPatch : String := "JSONPatch"

/-- The type `v1.AdmissionResponse`.  `Patch` holds the bytes `json.Marshal(patches)`,
kept here as the marshalled sequence itself (the nil slice is `[]`); `none` is a
nil `Patch`.  The defaults are Go zero values. -/
structure AdmissionResponse where
  UID : String := ""
  Allowed : Bool := false
  Result : Option Status := none
  Patch : Option (List patchOperation) := none
  PatchType : Option String := none
  deriving DecidableEq, Repr

/-- The type `v1.AdmissionReview`, without its `TypeMeta`; a nil pointer is `none`. -/
structure AdmissionReview where
  Request : Option AdmissionRequest
  Response : Option AdmissionResponse
  deriving DecidableEq, Repr

/-- A Go run-time panic. -/
inductive GoPanic where
  /-- a field of a nil pointer was read -/
  | nilDereference
  deriving DecidableEq, Repr

/-- The collaborators of the handler.
* `restconfig`: `kubernetes.NewForConfig(h.restconfig)`, `none` when it returns an
  error, otherwise the clientset as its `Namespaces().Get(name)`, which is `none`
  when the lookup returns an error;
* `deserializer`: `h.deserializer.Decode(body, nil, &ar)`, giving `ar` after the
  call and the error, if any;
* `unmarshalPod`: `json.Unmarshal(raw, &pod)`, `none` when it returns an error. -/
structure webhook where
  restconfig : Option (String → Option Namespace)
  deserializer : String → AdmissionReview × Option String
  unmarshalPod : String → Option Pod

/-- The method `mutate`.  The result `none` is the nil response; reading `req.Kind`
through a nil `a.Request` panics.  `json.Marshal(patches)` cannot fail on the values
built here (maps of strings, structs of strings and integers), so its error return
is left out. -/
def mutate (h : webhook) (a : AdmissionReview) : Except GoPanic (Option AdmissionResponse) :=
  match a.Request with
  | none => .error .nilDereference
  | some req =>
    if req.Kind.Kind ≠ "Pod" then
      .ok (some { Allowed := true })
    else
      match h.unmarshalPod req.Object.Raw with
      | none => .ok none
      | some pod =>
        match h.restconfig with
        | none => .ok none
        | some clientset =>
          match clientset req.Namespace with
          | none => .ok none
          | some ns =>
            .ok (some {
              Allowed := true
              Patch := some (buildPatches pod ns)
              PatchType := some PatchTypeJSONPatch })

/-- What `ServeHTTP` reads of the `http.Request`: the `Content-Type` header and the
bytes read from the body (empty when the body is nil or cannot be read). -/
structure HTTPRequest where
  contentType : String
  body : String
  deriving DecidableEq, Repr

/-- What `ServeHTTP` writes. -/
inductive HTTPReply where
  /-- the call `http.Error(w, message, code)` -/
  | error (message : String) (code : Nat)
  /-- the call `w.Write(resp)` with `resp` the bytes `json.Marshal(ar)` -/
  | review (ar : AdmissionReview)
  deriving DecidableEq, Repr

/-- Lines 101-108 of `ServeHTTP`: a non-nil response is stored in the envelope with
the UID of the request, if there is one; the request is dropped. -/
def assemble (ar : AdmissionReview) (admissionResponse : Option AdmissionResponse) :
    AdmissionReview :=
  let ar : AdmissionReview :=
    match admissionResponse with
    | some resp =>
      match ar.Request with
      | some req => { ar with Response := some { resp with UID := req.UID } }
      | none => { ar with Response := some resp }
    | none => ar
  { ar with Request := none }

/-- The method `ServeHTTP`.  A panic of `mutate` leaves the handler.  The reply
`review ar` is the envelope handed to `json.Marshal`, which cannot fail on it. -/
def ServeHTTP (h : webhook) (r : HTTPRequest) : Except GoPanic HTTPReply :=
  if r.contentType ≠ "application/json" then
    .ok (.error "invalid Content-Type, expect `application/json`" 415)
  else if r.body.length = 0 then
    .ok (.error "empty body" 400)
  else
    match h.deserializer r.body with
    | (ar, some err) =>
      .ok (.review (assemble ar (some { Result := some { Message := err } })))
    | (ar, none) =>
      match mutate h ar with
      | .error e => .error e
      | .ok admissionResponse => .ok (.review (assemble ar admissionResponse))

/-! ## Applying the patch (RFC 6902)

The patch is applied by the API server that called the handler.  Its semantics is
that of RFC 6902, written here for the operations and paths `mutate` emits.  The Pod
document is the `Pod` itself: a field that is `none` is a member the document does
not have (the API server omits empty fields), and `spec` is always there.  `add`
needs the parent of its target and sets the target, `replace` needs the target
itself; the end-of-array pointer appends to an array that exists.  An operation
with another path, or with a value the field cannot hold, does not apply. -/

/-- The document with member `nodeSelector` of `spec` set. -/
def setNodeSelector (doc : Pod) (m : GoMap) : Pod :=
  { doc with Spec := { doc.Spec with NodeSelector := some m } }

/-- The document with member `affinity` of `spec` set. -/
def setAffinity (doc : Pod) (a : Affinity) : Pod :=
  { doc with Spec := { doc.Spec with Affinity := some a } }

/-- The document with member `topologySpreadConstraints` of `spec` set. -/
def setSpreadConstraints (doc : Pod) (cs : List TopologySpreadConstraint) : Pod :=
  { doc with Spec := { doc.Spec with TopologySpreadConstraints := some cs } }

/-- One `add` or `replace` on the Pod document; `none` when the operation does not
apply. -/
def applyOperation (doc : Pod) (p : patchOperation) : Option Pod :=
  if p.Op ≠ "add" ∧ p.Op ≠ "replace" then none
  else if p.Path = "/spec/nodeSelector" then
    match p.Value with
    | .stringMap m =>
      if p.Op = "replace" ∧ doc.Spec.NodeSelector = none then none
      else some (setNodeSelector doc m)
    | _ => none
  else if p.Path = "/spec/affinity" then
    match p.Value with
    | .emptyObject =>
      if p.Op = "replace" ∧ doc.Spec.Affinity = none then none
      else some (setAffinity doc { PodAntiAffinity := none })
    | _ => none
  else if p.Path = "/spec/affinity/podAntiAffinity" then
    match p.Value, doc.Spec.Affinity with
    | .emptyObject, some a =>
      if p.Op = "replace" ∧ a.PodAntiAffinity = none then none
      else
        some (setAffinity doc
          { a with
            PodAntiAffinity := some { RequiredDuringSchedulingIgnoredDuringExecution := none } })
    | _, _ => none
  else if p.Path =
      "/spec/affinity/podAntiAffinity/requiredDuringSchedulingIgnoredDuringExecution" then
    match p.Value, doc.Spec.Affinity with
    | .emptyArray, some a =>
      match a.PodAntiAffinity with
      | some paa =>
        if p.Op = "replace" ∧ paa.RequiredDuringSchedulingIgnoredDuringExecution = none then none
        else
          some (setAffinity doc
            { a with
              PodAntiAffinity :=
                some { paa with RequiredDuringSchedulingIgnoredDuringExecution := some [] } })
      | none => none
    | _, _ => none
  else if p.Path =
      "/spec/affinity/podAntiAffinity/requiredDuringSchedulingIgnoredDuringExecution/-" then
    match p.Value, doc.Spec.Affinity with
    | .podAffinityTerm t, some a =>
      match a.PodAntiAffinity with
      | some paa =>
        match paa.RequiredDuringSchedulingIgnoredDuringExecution with
        | some terms =>
          if p.Op = "replace" then none
          else
            some (setAffinity doc
              { a with
                PodAntiAffinity :=
                  some { paa with
                    RequiredDuringSchedulingIgnoredDuringExecution := some (terms ++ [t]) } })
        | none => none
      | none => none
    | _, _ => none
  else if p.Path = "/spec/topologySpreadConstraints" then
    match p.Value with
    | .emptyArray =>
      if p.Op = "replace" ∧ doc.Spec.TopologySpreadConstraints = none then none
      else some (setSpreadConstraints doc [])
    | _ => none
  else if p.Path = "/spec/topologySpreadConstraints/-" then
    match p.Value, doc.Spec.TopologySpreadConstraints with
    | .topologySpreadConstraint c, some cs =>
      if p.Op = "replace" then none
      else some (setSpreadConstraints doc (cs ++ [c]))
    | _, _ => none
  else none

/-- The operations applied in order; `none` as soon as one does not apply. -/
def applyPatch : Pod → List patchOperation → Option Pod
  | doc, [] => some doc
  | doc, p :: ps =>
    match applyOperation doc p with
    | none => none
    | some doc' => applyPatch doc' ps

/-! ## The node selector annotation, as the specification words it -/

/-- A token is well formed when it holds exactly one `=`. -/
def wellFormed (token : String) : Bool :=
  decide (token.data.count '=' = 1)

/-- The part of a token before its first `=`. -/
def tokenKey (token : String) : String :=
  String.mk (token.data.takeWhile (fun c => c ≠ '='))

/-- The part of a token after its first `=`. -/
def tokenValue (token : String) : String :=
  String.mk ((token.data.dropWhile (fun c => c ≠ '=')).drop 1)

/-- The value of the last well-formed token `key=v` among the comma-separated
tokens of the annotation value, if there is one. -/
def lastWellFormed (value key : String) : Option String :=
  (((Split value ',').filter wellFormed).reverse.find? (fun t => tokenKey t = key)).map tokenValue

/-- The paths the anti-affinity pass of `mutate` writes to. -/
def affinityPaths : List String :=
  ["/spec/affinity",
   "/spec/affinity/podAntiAffinity",
   "/spec/affinity/podAntiAffinity/requiredDuringSchedulingIgnoredDuringExecution",
   "/spec/affinity/podAntiAffinity/requiredDuringSchedulingIgnoredDuringExecution/-"]

/-- The paths the topology spread pass of `mutate` writes to. -/
def spreadPaths : List String :=
  ["/spec/topologySpreadConstraints", "/spec/topologySpreadConstraints/-"]

/-! ## The document the patch is meant to produce -/

/-- The affinity terms the Pod already has; none when the field is absent at any
level. -/
def existingTerms (pod : Pod) : List PodAffinityTerm :=
  match (pod.Spec.Affinity.bind (fun a => a.PodAntiAffinity)).bind
      (fun p => p.RequiredDuringSchedulingIgnoredDuringExecution) with
  | some terms => terms
  | none => []

/-- The spread constraints the Pod already has; none when the field is absent. -/
def existingConstraints (pod : Pod) : List TopologySpreadConstraint :=
  match pod.Spec.TopologySpreadConstraints with
  | some cs => cs
  | none => []

/-- The Pod document with, for each annotation that is present, the field of its
pass rewritten: the node selector merged with the annotation's pairs, the required
anti-affinity terms followed by one term per non-empty key, the spread constraints
followed by one constraint per non-empty key. -/
def expectedDocument (pod : Pod) (ns : Namespace) : Pod :=
  { Labels := pod.Labels
    Spec := {
      NodeSelector :=
        match GoMap.lookup ns.Annotations NodeSelectorAnnotation with
        | none => pod.Spec.NodeSelector
        | some value =>
          some ((Split value ',').foldl storeSelector
            (match pod.Spec.NodeSelector with
              | some m => m
              | none => []))
      Affinity :=
        match GoMap.lookup ns.Annotations AntiAffinityAnnotation with
        | none => pod.Spec.Affinity
        | some value =>
          some { PodAntiAffinity := some {
            RequiredDuringSchedulingIgnoredDuringExecution :=
              some (existingTerms pod ++
                ((Split value ',').filter (fun token => token ≠ "")).map (fun token =>
                  { LabelSelector := some { MatchLabels := pod.Labels }
                    TopologyKey := token })) } }
      TopologySpreadConstraints :=
        match GoMap.lookup ns.Annotations TopologySpreadConstraintAnnotation with
        | none => pod.Spec.TopologySpreadConstraints
        | some value =>
          some (existingConstraints pod ++
            ((Split value ',').filter (fun token => token ≠ "")).map (fun token =>
              { MaxSkew := 1
                TopologyKey := token
                LabelSelector := some { MatchLabels := pod.Labels }
                WhenUnsatisfiable := "DoNotSchedule" })) } }

/-! ## Example inputs -/

/-- A Pod with labels and a node selector, without affinity and spread constraints. -/
def examplePod : Pod :=
  { Labels := some [("app", "web")]
    Spec := {
      NodeSelector := some [("env", "prod")]
      Affinity := none
      TopologySpreadConstraints := none } }

/-- A namespace with the node selector annotation only. -/
def nodeSelectorNamespace : Namespace :=
  { Annotations := [( NodeSelectorAnnotation, "disktype=ssd,zone=us")] }

/-- A namespace with the anti-affinity annotation only. -/
def antiAffinityNamespace : Namespace :=
  { Annotations := [( AntiAffinityAnnotation, "kubernetes.io/hostname,topology.kubernetes.io/zone")] }

/-- A namespace with the topology spread annotation only. -/
def topologySpreadNamespace : Namespace :=
  { Annotations := [( TopologySpreadConstraintAnnotation, "zone,,rack")] }

/-- A namespace without annotations. -/
def plainNamespace : Namespace :=
  { Annotations := [] }

/-- A namespace whose three annotations hold no usable token. -/
def tokenlessNamespace : Namespace :=
  { Annotations := [
      ( NodeSelectorAnnotation, "a=b=c"),
      ( AntiAffinityAnnotation, ""),
      ( TopologySpreadConstraintAnnotation, ",")] }

/-- A Pod without node selector, affinity and spread constraints. -/
def barePod : Pod :=
  { Labels := some [("app", "web")]
    Spec := { NodeSelector := none, Affinity := none, TopologySpreadConstraints := none } }

/-- An admission request for a Pod of namespace `team-a`. -/
def podRequest : AdmissionRequest :=
  { UID := "705ab4f5-6393-11e8-b7cc-42010a800002"
    Kind := { Group := "", Version := "v1", Kind := "Pod" }
    Namespace := "team-a"
    Object := { Raw := "pod" } }

/-- An admission request for a Deployment. -/
def deploymentRequest : AdmissionRequest :=
  { UID := "1c2d9f0e-7a41-4e0b-9a57-0d6f8f1b2a33"
    Kind := { Group := "apps", Version := "v1", Kind := "Deployment" }
    Namespace := "team-a"
    Object := { Raw := "deployment" } }

/-- A handler in a cluster whose only namespace is `team-a`, with the given content:
every body decodes to the given envelope and the object `pod` to `examplePod`; any
other object fails to deserialize. -/
def clusterWebhook (ns : Namespace) (ar : AdmissionReview) : webhook :=
  { restconfig := some (fun name => if name = "team-a" then some ns else none)
    deserializer := fun _ => (ar, none)
    unmarshalPod := fun raw => if raw = "pod" then some examplePod else none }

/-- A Pod request whose object does not deserialize. -/
def brokenPodRequest : AdmissionRequest :=
  { podRequest with Object := { Raw := "not a pod" } }

/-- A response object inside an incoming envelope. -/
def staleResponse : AdmissionResponse :=
  { UID := "0000-stale", Allowed := true }

/-- The HTTP request of the API server. -/
def reviewRequest : HTTPRequest :=
  { contentType := "application/json", body := "review" }

/-! ## Lemmas on the library operations -/

theorem length_eq_zero_iff (s : String) : s.length = 0 ↔ s = "" := by
  cases s with
  | mk l =>
    constructor
    · intro h
      have : l = [] := List.length_eq_zero.mp h
      subst this; rfl
    · intro h
      rw [h]; rfl

theorem splitChars_length (sep : Char) (l : List Char) :
    (splitChars sep l).length = l.count sep + 1 := by
  induction l with
  | nil => simp [splitChars]
  | cons c cs ih =>
    by_cases h : c = sep
    · subst h
      simp [splitChars, ih]
    · have hc : (c == sep) = false := by simpa using h
      cases hs : splitChars sep cs with
      | nil => simp [hs] at ih
      | cons t ts =>
        rw [hs] at ih
        simp only [splitChars, if_neg h, hs, List.length_cons, List.count_cons, hc] at ih ⊢
        simpa using ih

theorem splitChars_of_count_eq_zero (sep : Char) (l : List Char) (h : l.count sep = 0) :
    splitChars sep l = [l] := by
  induction l with
  | nil => simp [splitChars]
  | cons c cs ih =>
    by_cases hc : c = sep
    · subst hc
      simp at h
    · have hb : (c == sep) = false := by simpa using hc
      have h' : cs.count sep = 0 := by
        simpa [List.count_cons, hb] using h
      simp [splitChars, hc, ih h']

theorem splitChars_of_count_eq_one (sep : Char) (l : List Char) (h : l.count sep = 1) :
    splitChars sep l =
      [l.takeWhile (fun c => c ≠ sep), (l.dropWhile (fun c => c ≠ sep)).drop 1] := by
  induction l with
  | nil => simp at h
  | cons c cs ih =>
    by_cases hc : c = sep
    · subst hc
      have h' : cs.count c = 0 := by
        simpa [List.count_cons] using h
      simp [splitChars, splitChars_of_count_eq_zero c cs h', List.takeWhile, List.dropWhile]
    · have hb : (c == sep) = false := by simpa using hc
      have h' : cs.count sep = 1 := by
        simpa [List.count_cons, hb] using h
      simp [splitChars, hc, ih h', List.takeWhile, List.dropWhile]

theorem lookup_store (m : GoMap) (k v k' : String) :
    GoMap.lookup (GoMap.store m k v) k' = if k = k' then some v else GoMap.lookup m k' := by
  induction m with
  | nil => simp [GoMap.store, GoMap.lookup]
  | cons e r ih =>
    obtain ⟨a, b⟩ := e
    by_cases h : a = k
    · subst h
      by_cases h' : a = k' <;> simp [GoMap.store, GoMap.lookup, h']
    · by_cases h' : a = k'
      · subst h'
        have : ¬ k = a := fun e => h e.symm
        simp [GoMap.store, GoMap.lookup, h, this]
      · simp [GoMap.store, GoMap.lookup, h, h', ih]

/-! ## Lemmas on the passes of `mutate` -/

theorem storeSelector_eq (m : GoMap) (token : String) :
    storeSelector m token =
      if wellFormed token then GoMap.store m (tokenKey token) (tokenValue token) else m := by
  by_cases h : token.data.count '=' = 1
  · simp [storeSelector, Split, splitChars_of_count_eq_one _ _ h, wellFormed, h, tokenKey,
      tokenValue]
  · have hlen : (splitChars '=' token.data).length ≠ 2 := by
      rw [splitChars_length]; omega
    have hw : wellFormed token = false := by simp [wellFormed, h]
    rw [hw]
    unfold storeSelector Split
    rcases hs : splitChars '=' token.data with _ | ⟨a, _ | ⟨b, _ | ⟨c, r⟩⟩⟩
    · simp
    · simp
    · rw [hs] at hlen; simp at hlen
    · simp

theorem lookup_foldl_storeSelector (tokens : List String) (m : GoMap) (k : String) :
    GoMap.lookup (tokens.foldl storeSelector m) k =
      match ((tokens.filter wellFormed).reverse.find? (fun t => tokenKey t = k)).map tokenValue with
      | some v => some v
      | none => GoMap.lookup m k := by
  induction tokens generalizing m with
  | nil => simp
  | cons t ts ih =>
    rw [List.foldl_cons, ih, storeSelector_eq]
    by_cases hw : wellFormed t = true
    · simp only [hw, if_true, List.filter_cons_of_pos, List.reverse_cons, List.find?_append]
      cases hf : (List.filter wellFormed ts).reverse.find? (fun t => decide (tokenKey t = k)) with
      | some x => simp
      | none =>
        by_cases hk : tokenKey t = k
        · simp [hk, lookup_store]
        · simp [hk, lookup_store]
    · have hw' : wellFormed t = false := by simpa using hw
      simp [hw']

theorem foldl_appendAffinityTerm (pod : Pod) (keys : List String)
    (patches : List patchOperation) :
    keys.foldl (appendAffinityTerm pod) patches =
      patches ++ (keys.filter (fun t => t ≠ "")).map (fun t =>
        { Op := "add"
          Path := "/spec/affinity/podAntiAffinity/requiredDuringSchedulingIgnoredDuringExecution/-"
          Value := .podAffinityTerm {
            LabelSelector := some { MatchLabels := pod.Labels }
            TopologyKey := t } }) := by
  induction keys generalizing patches with
  | nil => simp
  | cons t ts ih =>
    rw [List.foldl_cons, ih]
    by_cases h : t = ""
    · subst h
      simp [appendAffinityTerm]
    · have h' : t.length ≠ 0 := fun e => h ((length_eq_zero_iff t).mp e)
      simp [appendAffinityTerm, h, h']

theorem foldl_appendSpreadConstraint (pod : Pod) (keys : List String)
    (patches : List patchOperation) :
    keys.foldl (appendSpreadConstraint pod) patches =
      patches ++ (keys.filter (fun t => t ≠ "")).map (fun t =>
        { Op := "add"
          Path := "/spec/topologySpreadConstraints/-"
          Value := .topologySpreadConstraint {
            MaxSkew := 1
            TopologyKey := t
            LabelSelector := some { MatchLabels := pod.Labels }
            WhenUnsatisfiable := "DoNotSchedule" } }) := by
  induction keys generalizing patches with
  | nil => simp
  | cons t ts ih =>
    rw [List.foldl_cons, ih]
    by_cases h : t = ""
    · subst h
      simp [appendSpreadConstraint]
    · have h' : t.length ≠ 0 := fun e => h ((length_eq_zero_iff t).mp e)
      simp [appendSpreadConstraint, h, h', DoNotSchedule]

theorem antiAffinityPass_append (pod : Pod) (ns : Namespace) (patches : List patchOperation) :
    antiAffinityPass pod ns patches = patches ++ antiAffinityPass pod ns [] := by
  unfold antiAffinityPass
  cases GoMap.lookup ns.Annotations AntiAffinityAnnotation with
  | none => simp
  | some value =>
    simp only [foldl_appendAffinityTerm]
    split_ifs <;> simp

theorem topologySpreadPass_append (pod : Pod) (ns : Namespace) (patches : List patchOperation) :
    topologySpreadPass pod ns patches = patches ++ topologySpreadPass pod ns [] := by
  unfold topologySpreadPass
  cases GoMap.lookup ns.Annotations TopologySpreadConstraintAnnotation with
  | none => simp
  | some value =>
    simp only [foldl_appendSpreadConstraint]
    split_ifs <;> simp

theorem buildPatches_eq (pod : Pod) (ns : Namespace) :
    buildPatches pod ns =
      nodeSelectorPass pod ns [] ++ (antiAffinityPass pod ns [] ++ topologySpreadPass pod ns []) := by
  unfold buildPatches
  rw [topologySpreadPass_append, antiAffinityPass_append, List.append_assoc]

theorem nodeSelectorPass_path (pod : Pod) (ns : Namespace) (p : patchOperation)
    (hp : p ∈ nodeSelectorPass pod ns []) : p.Path = "/spec/nodeSelector" := by
  unfold nodeSelectorPass at hp
  cases h : GoMap.lookup ns.Annotations NodeSelectorAnnotation with
  | none => simp [h] at hp
  | some value =>
    simp only [h, List.nil_append, List.mem_singleton] at hp
    rw [hp]

theorem antiAffinityPass_path (pod : Pod) (ns : Namespace) (p : patchOperation)
    (hp : p ∈ antiAffinityPass pod ns []) :
    p.Path = "/spec/affinity" ∨ p.Path = "/spec/affinity/podAntiAffinity" ∨
    p.Path = "/spec/affinity/podAntiAffinity/requiredDuringSchedulingIgnoredDuringExecution" ∨
    p.Path =
      "/spec/affinity/podAntiAffinity/requiredDuringSchedulingIgnoredDuringExecution/-" := by
  unfold antiAffinityPass at hp
  cases h : GoMap.lookup ns.Annotations AntiAffinityAnnotation with
  | none => simp [h] at hp
  | some value =>
    simp only [h, foldl_appendAffinityTerm, List.mem_append, List.mem_map] at hp
    rcases hp with hp | ⟨t, _, rfl⟩
    · split_ifs at hp <;> simp at hp <;>
        first
        | (rcases hp with hp | hp | hp <;> simp [hp])
        | (rcases hp with hp | hp <;> simp [hp])
        | simp [hp]
    · simp

theorem topologySpreadPass_path (pod : Pod) (ns : Namespace) (p : patchOperation)
    (hp : p ∈ topologySpreadPass pod ns []) :
    p.Path = "/spec/topologySpreadConstraints" ∨
    p.Path = "/spec/topologySpreadConstraints/-" := by
  unfold topologySpreadPass at hp
  cases h : GoMap.lookup ns.Annotations TopologySpreadConstraintAnnotation with
  | none => simp [h] at hp
  | some value =>
    simp only [h, foldl_appendSpreadConstraint, List.mem_append, List.mem_map] at hp
    rcases hp with hp | ⟨t, _, rfl⟩
    · split_ifs at hp <;> simp at hp
      simp [hp]
    · simp

theorem podAntiAffinityIsNil_iff (pod : Pod) :
    podAntiAffinityIsNil pod = true ↔
      pod.Spec.Affinity.bind (fun a => a.PodAntiAffinity) = none := by
  unfold podAntiAffinityIsNil
  cases pod.Spec.Affinity with
  | none => simp
  | some a => cases h : a.PodAntiAffinity <;> simp [h]

theorem requiredTermsIsNil_iff (pod : Pod) :
    requiredTermsIsNil pod = true ↔
      (pod.Spec.Affinity.bind (fun a => a.PodAntiAffinity)).bind
        (fun p => p.RequiredDuringSchedulingIgnoredDuringExecution) = none := by
  unfold requiredTermsIsNil
  cases pod.Spec.Affinity with
  | none => simp
  | some a =>
    cases h : a.PodAntiAffinity with
    | none => simp [h]
    | some p => cases h' : p.RequiredDuringSchedulingIgnoredDuringExecution <;> simp [h, h']

theorem foldl_storeSelector_of_malformed (tokens : List String) (m : GoMap)
    (h : ∀ token ∈ tokens, wellFormed token = false) :
    tokens.foldl storeSelector m = m := by
  induction tokens generalizing m with
  | nil => rfl
  | cons t ts ih =>
    have ht : wellFormed t = false := h t (List.mem_cons_self t ts)
    rw [List.foldl_cons, storeSelector_eq, ht]
    exact ih m (fun token hmem => h token (List.mem_cons_of_mem t hmem))

theorem filter_nonEmpty_of_empty (tokens : List String) (h : ∀ token ∈ tokens, token = "") :
    tokens.filter (fun t => decide (t ≠ "")) = [] := by
  rw [List.filter_eq_nil_iff]
  intro t ht
  simp [h t ht]

theorem mutate_patch (h : webhook) (a : AdmissionReview) (req : AdmissionRequest)
    (pod : Pod) (clientset : String → Option Namespace) (ns : Namespace)
    (hreq : a.Request = some req) (hkind : req.Kind.Kind = "Pod")
    (hpod : h.unmarshalPod req.Object.Raw = some pod)
    (hclient : h.restconfig = some clientset) (hns : clientset req.Namespace = some ns) :
    mutate h a =
      .ok (some {
        UID := ""
        Allowed := true
        Result := none
        Patch := some (buildPatches pod ns)
        PatchType := some "JSONPatch" }) := by
  simp [mutate, hreq, hkind, hpod, hclient, hns, PatchTypeJSONPatch]

/-! ## Applying the patch -/

theorem applyPatch_append (doc : Pod) (ps qs : List patchOperation) :
    applyPatch doc (ps ++ qs) = (applyPatch doc ps).bind (fun d => applyPatch d qs) := by
  induction ps generalizing doc with
  | nil => simp [applyPatch]
  | cons p ps ih =>
    simp only [List.cons_append, applyPatch]
    cases applyOperation doc p with
    | none => simp
    | some d => simp [ih]

theorem applyPatch_affinityTerms (labels : Option GoMap) (keys : List String) (doc : Pod)
    (terms : List PodAffinityTerm)
    (hdoc : doc.Spec.Affinity =
      some { PodAntiAffinity := some {
        RequiredDuringSchedulingIgnoredDuringExecution := some terms } }) :
    applyPatch doc (keys.map (fun t =>
        { Op := "add"
          Path := "/spec/affinity/podAntiAffinity/requiredDuringSchedulingIgnoredDuringExecution/-"
          Value := .podAffinityTerm {
            LabelSelector := some { MatchLabels := labels }
            TopologyKey := t } })) =
      some (setAffinity doc { PodAntiAffinity := some {
        RequiredDuringSchedulingIgnoredDuringExecution :=
          some (terms ++ keys.map (fun t =>
            { LabelSelector := some { MatchLabels := labels }, TopologyKey := t })) } }) := by
  induction keys generalizing doc terms with
  | nil =>
    simp only [List.map_nil, applyPatch, List.append_nil, setAffinity, ← hdoc]
  | cons t ts ih =>
    simp only [List.map_cons, applyPatch]
    have hop : applyOperation doc
        { Op := "add"
          Path := "/spec/affinity/podAntiAffinity/requiredDuringSchedulingIgnoredDuringExecution/-"
          Value := .podAffinityTerm {
            LabelSelector := some { MatchLabels := labels }
            TopologyKey := t } } =
        some (setAffinity doc { PodAntiAffinity := some {
          RequiredDuringSchedulingIgnoredDuringExecution :=
            some (terms ++ [{ LabelSelector := some { MatchLabels := labels },
                              TopologyKey := t }]) } }) := by
      simp [applyOperation, hdoc]
    rw [hop]
    simp only
    rw [ih _ (terms ++ [{ LabelSelector := some { MatchLabels := labels }, TopologyKey := t }])
      (by simp [setAffinity])]
    simp [setAffinity]

theorem applyPatch_spreadConstraints (labels : Option GoMap) (keys : List String) (doc : Pod)
    (cs : List TopologySpreadConstraint) (hdoc : doc.Spec.TopologySpreadConstraints = some cs) :
    applyPatch doc (keys.map (fun t =>
        { Op := "add"
          Path := "/spec/topologySpreadConstraints/-"
          Value := .topologySpreadConstraint {
            MaxSkew := 1
            TopologyKey := t
            LabelSelector := some { MatchLabels := labels }
            WhenUnsatisfiable := "DoNotSchedule" } })) =
      some (setSpreadConstraints doc (cs ++ keys.map (fun t =>
        { MaxSkew := 1
          TopologyKey := t
          LabelSelector := some { MatchLabels := labels }
          WhenUnsatisfiable := "DoNotSchedule" }))) := by
  induction keys generalizing doc cs with
  | nil =>
    simp only [List.map_nil, applyPatch, List.append_nil, setSpreadConstraints, ← hdoc]
  | cons t ts ih =>
    simp only [List.map_cons, applyPatch]
    have hop : applyOperation doc
        { Op := "add"
          Path := "/spec/topologySpreadConstraints/-"
          Value := .topologySpreadConstraint {
            MaxSkew := 1
            TopologyKey := t
            LabelSelector := some { MatchLabels := labels }
            WhenUnsatisfiable := "DoNotSchedule" } } =
        some (setSpreadConstraints doc (cs ++ [{
          MaxSkew := 1
          TopologyKey := t
          LabelSelector := some { MatchLabels := labels }
          WhenUnsatisfiable := "DoNotSchedule" }])) := by
      simp [applyOperation, hdoc]
    rw [hop]
    simp only
    rw [ih _ (cs ++ [{
        MaxSkew := 1
        TopologyKey := t
        LabelSelector := some { MatchLabels := labels }
        WhenUnsatisfiable := "DoNotSchedule" }]) (by simp [setSpreadConstraints])]
    simp [setSpreadConstraints]

theorem applyPatch_nodeSelectorPass (pod : Pod) (ns : Namespace) :
    applyPatch pod (nodeSelectorPass pod ns []) =
      match GoMap.lookup ns.Annotations NodeSelectorAnnotation with
      | none => some pod
      | some value =>
        if pod.Spec.NodeSelector = none then none
        else some (setNodeSelector pod ((Split value ',').foldl storeSelector
          (match pod.Spec.NodeSelector with
            | some m => m
            | none => []))) := by
  unfold nodeSelectorPass
  cases GoMap.lookup ns.Annotations NodeSelectorAnnotation with
  | none => simp [applyPatch]
  | some value =>
    cases h : pod.Spec.NodeSelector with
    | none => simp [applyPatch, applyOperation, h]
    | some m => simp [applyPatch, applyOperation, h]

theorem applyPatch_antiAffinityPass (pod : Pod) (ns : Namespace) (doc : Pod)
    (hdoc : doc.Spec.Affinity = pod.Spec.Affinity) :
    applyPatch doc (antiAffinityPass pod ns []) =
      match GoMap.lookup ns.Annotations AntiAffinityAnnotation with
      | none => some doc
      | some value =>
        some (setAffinity doc { PodAntiAffinity := some {
          RequiredDuringSchedulingIgnoredDuringExecution :=
            some (existingTerms pod ++
              ((Split value ',').filter (fun token => token ≠ "")).map (fun token =>
                { LabelSelector := some { MatchLabels := pod.Labels }
                  TopologyKey := token })) } }) := by
  unfold antiAffinityPass
  cases GoMap.lookup ns.Annotations AntiAffinityAnnotation with
  | none => simp [applyPatch]
  | some value =>
    simp only [foldl_appendAffinityTerm, List.nil_append]
    rw [applyPatch_append]
    rcases ha : pod.Spec.Affinity with _ | ⟨_ | ⟨_ | terms⟩⟩
    · rw [ha] at hdoc
      simp only [podAntiAffinityIsNil, requiredTermsIsNil, ha, if_true, List.singleton_append,
        applyPatch]
      simp only [applyOperation, hdoc, setAffinity]
      simp only [existingTerms, ha]
      simp
      rw [applyPatch_affinityTerms pod.Labels _ _ [] (by rfl)]
      simp [setAffinity]
    · rw [ha] at hdoc
      simp only [podAntiAffinityIsNil, requiredTermsIsNil, ha, List.singleton_append,
        applyPatch]
      simp only [applyOperation, hdoc, setAffinity]
      simp only [existingTerms, ha]
      simp
      rw [applyPatch_affinityTerms pod.Labels _ _ [] (by rfl)]
      simp [setAffinity]
    · rw [ha] at hdoc
      simp only [podAntiAffinityIsNil, requiredTermsIsNil, ha, List.singleton_append,
        applyPatch]
      simp only [applyOperation, hdoc, setAffinity]
      simp only [existingTerms, ha]
      simp
      rw [applyPatch_affinityTerms pod.Labels _ _ [] (by rfl)]
      simp [setAffinity]
    · rw [ha] at hdoc
      simp only [podAntiAffinityIsNil, requiredTermsIsNil, ha, List.singleton_append,
        applyPatch]
      simp only [existingTerms, ha]
      simp
      rw [applyPatch_affinityTerms pod.Labels _ _ terms hdoc]

theorem applyPatch_topologySpreadPass (pod : Pod) (ns : Namespace) (doc : Pod)
    (hdoc : doc.Spec.TopologySpreadConstraints = pod.Spec.TopologySpreadConstraints) :
    applyPatch doc (topologySpreadPass pod ns []) =
      match GoMap.lookup ns.Annotations TopologySpreadConstraintAnnotation with
      | none => some doc
      | some value =>
        some (setSpreadConstraints doc (existingConstraints pod ++
          ((Split value ',').filter (fun token => token ≠ "")).map (fun token =>
            { MaxSkew := 1
              TopologyKey := token
              LabelSelector := some { MatchLabels := pod.Labels }
              WhenUnsatisfiable := "DoNotSchedule" }))) := by
  unfold topologySpreadPass
  cases GoMap.lookup ns.Annotations TopologySpreadConstraintAnnotation with
  | none => simp [applyPatch]
  | some value =>
    simp only [foldl_appendSpreadConstraint, List.nil_append]
    rw [applyPatch_append]
    cases hc : pod.Spec.TopologySpreadConstraints with
    | none =>
      rw [hc] at hdoc
      simp only [if_true, applyPatch]
      simp only [applyOperation, hdoc, existingConstraints, hc]
      simp
      rw [applyPatch_spreadConstraints pod.Labels _ _ [] (by rfl)]
      simp [setSpreadConstraints]
    | some cs =>
      rw [hc] at hdoc
      simp only [existingConstraints, hc]
      simp [applyPatch]
      rw [applyPatch_spreadConstraints pod.Labels _ _ cs hdoc]

/-- The patch of `mutate` applied to the Pod it was built from: it fails exactly
when the node selector annotation is present and the Pod has no node selector, and
otherwise yields the expected document. -/
theorem applyPatch_buildPatches (pod : Pod) (ns : Namespace) :
    applyPatch pod (buildPatches pod ns) =
      if pod.Spec.NodeSelector = none ∧
          GoMap.lookup ns.Annotations NodeSelectorAnnotation ≠ none then none
      else some (expectedDocument pod ns) := by
  rw [buildPatches_eq, applyPatch_append, applyPatch_nodeSelectorPass]
  cases hn : GoMap.lookup ns.Annotations NodeSelectorAnnotation with
  | none =>
    simp only [Option.some_bind, ne_eq, not_true_eq_false, and_false, if_false]
    rw [applyPatch_append, applyPatch_antiAffinityPass pod ns pod rfl]
    cases ha : GoMap.lookup ns.Annotations AntiAffinityAnnotation with
    | none =>
      simp only [Option.some_bind]
      rw [applyPatch_topologySpreadPass pod ns pod rfl]
      cases hs : GoMap.lookup ns.Annotations TopologySpreadConstraintAnnotation <;>
        simp [expectedDocument, hn, ha, hs, setSpreadConstraints]
    | some av =>
      simp only [Option.some_bind]
      rw [applyPatch_topologySpreadPass pod ns (setAffinity pod _) rfl]
      cases hs : GoMap.lookup ns.Annotations TopologySpreadConstraintAnnotation <;>
        simp [expectedDocument, hn, ha, hs, setSpreadConstraints, setAffinity]
  | some nv =>
    cases hsel : pod.Spec.NodeSelector with
    | none => simp
    | some m =>
      simp only [Option.some_bind, reduceCtorEq, false_and, if_false]
      rw [applyPatch_append, applyPatch_antiAffinityPass pod ns (setNodeSelector pod _) rfl]
      cases ha : GoMap.lookup ns.Annotations AntiAffinityAnnotation with
      | none =>
        simp only [Option.some_bind]
        rw [applyPatch_topologySpreadPass pod ns (setNodeSelector pod _) rfl]
        cases hs : GoMap.lookup ns.Annotations TopologySpreadConstraintAnnotation <;>
          simp [expectedDocument, hn, ha, hs, hsel, setSpreadConstraints, setNodeSelector]
      | some av =>
        simp only [Option.some_bind]
        rw [applyPatch_topologySpreadPass pod ns (setAffinity (setNodeSelector pod _) _) rfl]
        cases hs : GoMap.lookup ns.Annotations TopologySpreadConstraintAnnotation <;>
          simp [expectedDocument, hn, ha, hs, hsel, setSpreadConstraints, setAffinity,
            setNodeSelector]

/-! ## Properties of the handler -/

/-- C1: when the node selector annotation holds at least one well-formed token, the
patch sequence starts with a `replace` at `/spec/nodeSelector`, no later operation
has that path, and the value is a map `M` in which every key has the value of the
last well-formed token of that key if there is one and otherwise the value of the
Pod's own node selector, if any. -/
theorem nodeSelector_merge (pod : Pod) (ns : Namespace) (value : String)
    (hvalue : GoMap.lookup ns.Annotations NodeSelectorAnnotation = some value)
    (_htoken : ∃ token ∈ Split value ',', wellFormed token = true) :
    ∃ M rest,
      buildPatches pod ns =
        { Op := "replace", Path := "/spec/nodeSelector", Value := .stringMap M } :: rest ∧
      (∀ p ∈ rest, p.Path ≠ "/spec/nodeSelector") ∧
      ∀ k, GoMap.lookup M k =
        match lastWellFormed value k with
        | some v => some v
        | none =>
          match pod.Spec.NodeSelector with
          | some m => GoMap.lookup m k
          | none => none := by
  refine ⟨(Split value ',').foldl storeSelector
      (match pod.Spec.NodeSelector with
        | none => []
        | some m => m),
    antiAffinityPass pod ns [] ++ topologySpreadPass pod ns [], ?_, ?_, ?_⟩
  · rw [buildPatches_eq]
    simp only [nodeSelectorPass, hvalue, List.nil_append, List.singleton_append]
  · intro p hp
    rcases List.mem_append.mp hp with h | h
    · rcases antiAffinityPass_path pod ns p h with e | e | e | e <;> rw [e] <;> decide
    · rcases topologySpreadPass_path pod ns p h with e | e <;> rw [e] <;> decide
  · intro k
    rw [lookup_foldl_storeSelector]
    unfold lastWellFormed
    cases ((Split value ',').filter wellFormed).reverse.find? (fun t => tokenKey t = k) with
    | some t => simp
    | none => cases pod.Spec.NodeSelector <;> simp [GoMap.lookup]

/-- C1 at the annotation `disktype=ssd,zone=us` and the node selector `env=prod`. -/
theorem nodeSelector_merge_witness :
    (∃ token ∈ Split "disktype=ssd,zone=us" ',', wellFormed token = true) ∧
    (∃ M rest,
      buildPatches examplePod nodeSelectorNamespace =
        { Op := "replace", Path := "/spec/nodeSelector", Value := .stringMap M } :: rest ∧
      (∀ p ∈ rest, p.Path ≠ "/spec/nodeSelector") ∧
      ∀ k, GoMap.lookup M k =
        match lastWellFormed "disktype=ssd,zone=us" k with
        | some v => some v
        | none =>
          match examplePod.Spec.NodeSelector with
          | some m => GoMap.lookup m k
          | none => none) ∧
    buildPatches examplePod nodeSelectorNamespace =
      [{ Op := "replace", Path := "/spec/nodeSelector",
         Value := .stringMap [("env", "prod"), ("disktype", "ssd"), ("zone", "us")] }] :=
  ⟨by decide,
   nodeSelector_merge examplePod nodeSelectorNamespace "disktype=ssd,zone=us" (by decide)
     (by decide),
   by decide⟩

/-- C2: when the anti-affinity annotation holds at least one non-empty token, the
patch sequence is the node selector operations, then the operations of this pass,
then the topology spread operations, and the operations of this pass are: an `add`
of an empty object at `/spec/affinity` exactly when the Pod has no affinity, an
`add` of an empty object at `/spec/affinity/podAntiAffinity` exactly when the Pod
has no affinity or no podAntiAffinity, an `add` of an empty array at the required
terms exactly when they are absent at any level, and one end-of-array `add` per
non-empty token, in order, with the token as topology key and the Pod's labels as
`matchLabels`. -/
theorem antiAffinity_pass (pod : Pod) (ns : Namespace) (value : String)
    (hvalue : GoMap.lookup ns.Annotations AntiAffinityAnnotation = some value)
    (_htoken : ∃ token ∈ Split value ',', token ≠ "") :
    ∃ before after,
      buildPatches pod ns =
        before ++
        ((if pod.Spec.Affinity = none then
            [{ Op := "add", Path := "/spec/affinity", Value := .emptyObject }]
          else []) ++
         (if pod.Spec.Affinity = none ∨
              pod.Spec.Affinity.bind (fun a => a.PodAntiAffinity) = none then
            [{ Op := "add", Path := "/spec/affinity/podAntiAffinity", Value := .emptyObject }]
          else []) ++
         (if (pod.Spec.Affinity.bind (fun a => a.PodAntiAffinity)).bind
              (fun p => p.RequiredDuringSchedulingIgnoredDuringExecution) = none then
            [{ Op := "add"
               Path :=
                 "/spec/affinity/podAntiAffinity/requiredDuringSchedulingIgnoredDuringExecution"
               Value := .emptyArray }]
          else []) ++
         ((Split value ',').filter (fun token => token ≠ "")).map (fun token =>
            { Op := "add"
              Path :=
                "/spec/affinity/podAntiAffinity/requiredDuringSchedulingIgnoredDuringExecution/-"
              Value := .podAffinityTerm {
                LabelSelector := some { MatchLabels := pod.Labels }
                Namespaces := []
                TopologyKey := token } })) ++
        after ∧
      (∀ p ∈ before, p.Path = "/spec/nodeSelector") ∧
      (∀ p ∈ after, p.Path = "/spec/topologySpreadConstraints" ∨
        p.Path = "/spec/topologySpreadConstraints/-") := by
  have hor : (pod.Spec.Affinity = none ∨
      pod.Spec.Affinity.bind (fun a => a.PodAntiAffinity) = none) ↔
      pod.Spec.Affinity.bind (fun a => a.PodAntiAffinity) = none := by
    constructor
    · rintro (h | h)
      · rw [h]; rfl
      · exact h
    · exact Or.inr
  refine ⟨nodeSelectorPass pod ns [], topologySpreadPass pod ns [], ?_,
    nodeSelectorPass_path pod ns, topologySpreadPass_path pod ns⟩
  rw [buildPatches_eq, List.append_assoc (nodeSelectorPass pod ns [])]
  congr 2
  unfold antiAffinityPass
  simp only [hvalue, foldl_appendAffinityTerm, podAntiAffinityIsNil_iff, requiredTermsIsNil_iff,
    List.nil_append, hor]
  split_ifs <;> simp

/-- C2 at a Pod without affinity and the annotation
`kubernetes.io/hostname,topology.kubernetes.io/zone`: exactly five operations. -/
theorem antiAffinity_pass_witness :
    (∃ token ∈ Split "kubernetes.io/hostname,topology.kubernetes.io/zone" ',', token ≠ "") ∧
    (∃ before after,
      buildPatches examplePod antiAffinityNamespace =
        before ++
        [{ Op := "add", Path := "/spec/affinity", Value := .emptyObject },
         { Op := "add", Path := "/spec/affinity/podAntiAffinity", Value := .emptyObject },
         { Op := "add"
           Path := "/spec/affinity/podAntiAffinity/requiredDuringSchedulingIgnoredDuringExecution"
           Value := .emptyArray },
         { Op := "add"
           Path :=
             "/spec/affinity/podAntiAffinity/requiredDuringSchedulingIgnoredDuringExecution/-"
           Value := .podAffinityTerm {
             LabelSelector := some { MatchLabels := some [("app", "web")] }
             TopologyKey := "kubernetes.io/hostname" } },
         { Op := "add"
           Path :=
             "/spec/affinity/podAntiAffinity/requiredDuringSchedulingIgnoredDuringExecution/-"
           Value := .podAffinityTerm {
             LabelSelector := some { MatchLabels := some [("app", "web")] }
             TopologyKey := "topology.kubernetes.io/zone" } }] ++
        after ∧
      (∀ p ∈ before, p.Path = "/spec/nodeSelector") ∧
      (∀ p ∈ after, p.Path = "/spec/topologySpreadConstraints" ∨
        p.Path = "/spec/topologySpreadConstraints/-")) ∧
    (buildPatches examplePod antiAffinityNamespace).length = 5 :=
  ⟨by decide,
   antiAffinity_pass examplePod antiAffinityNamespace
     "kubernetes.io/hostname,topology.kubernetes.io/zone" (by decide) (by decide),
   by decide⟩

/-- C3: when the topology spread annotation holds at least one non-empty token, the
patch sequence is the operations of the two earlier passes followed by the
operations of this pass, which are: an `add` of an empty array at
`/spec/topologySpreadConstraints` exactly when the Pod has none, and one
end-of-array `add` per non-empty token, in order, whose value has `maxSkew` 1, the
token as topology key, the Pod's labels as `matchLabels` and `whenUnsatisfiable`
`DoNotSchedule`. -/
theorem topologySpread_pass (pod : Pod) (ns : Namespace) (value : String)
    (hvalue : GoMap.lookup ns.Annotations TopologySpreadConstraintAnnotation = some value)
    (_htoken : ∃ token ∈ Split value ',', token ≠ "") :
    ∃ before,
      buildPatches pod ns =
        before ++
        ((if pod.Spec.TopologySpreadConstraints = none then
            [{ Op := "add", Path := "/spec/topologySpreadConstraints", Value := .emptyArray }]
          else []) ++
         ((Split value ',').filter (fun token => token ≠ "")).map (fun token =>
            { Op := "add"
              Path := "/spec/topologySpreadConstraints/-"
              Value := .topologySpreadConstraint {
                MaxSkew := 1
                TopologyKey := token
                LabelSelector := some { MatchLabels := pod.Labels, MatchExpressions := [] }
                WhenUnsatisfiable := "DoNotSchedule" } })) ∧
      (∀ p ∈ before, p.Path ≠ "/spec/topologySpreadConstraints" ∧
        p.Path ≠ "/spec/topologySpreadConstraints/-") := by
  refine ⟨nodeSelectorPass pod ns [] ++ antiAffinityPass pod ns [], ?_, ?_⟩
  · rw [buildPatches_eq, List.append_assoc]
    congr 2
    unfold topologySpreadPass
    simp only [hvalue, foldl_appendSpreadConstraint, List.nil_append]
  · intro p hp
    rcases List.mem_append.mp hp with h | h
    · rw [nodeSelectorPass_path pod ns p h]; decide
    · rcases antiAffinityPass_path pod ns p h with e | e | e | e <;> rw [e] <;> decide

/-- C3 at the annotation `zone,,rack`: the empty token is skipped and two
constraints are appended, for `zone` then `rack`. -/
theorem topologySpread_pass_witness :
    (∃ token ∈ Split "zone,,rack" ',', token ≠ "") ∧
    (∃ before,
      buildPatches examplePod topologySpreadNamespace =
        before ++
        [{ Op := "add", Path := "/spec/topologySpreadConstraints", Value := .emptyArray },
         { Op := "add"
           Path := "/spec/topologySpreadConstraints/-"
           Value := .topologySpreadConstraint {
             MaxSkew := 1
             TopologyKey := "zone"
             LabelSelector := some { MatchLabels := some [("app", "web")] }
             WhenUnsatisfiable := "DoNotSchedule" } },
         { Op := "add"
           Path := "/spec/topologySpreadConstraints/-"
           Value := .topologySpreadConstraint {
             MaxSkew := 1
             TopologyKey := "rack"
             LabelSelector := some { MatchLabels := some [("app", "web")] }
             WhenUnsatisfiable := "DoNotSchedule" } }] ∧
      (∀ p ∈ before, p.Path ≠ "/spec/topologySpreadConstraints" ∧
        p.Path ≠ "/spec/topologySpreadConstraints/-")) ∧
    (buildPatches examplePod topologySpreadNamespace).length = 3 :=
  ⟨by decide,
   topologySpread_pass examplePod topologySpreadNamespace "zone,,rack" (by decide) (by decide),
   by decide⟩

/-- C4, the failing input: a Pod without node selector in a namespace with the node
selector annotation.  The patch is the one `replace` at `/spec/nodeSelector`, whose
target the document does not have, and applying it fails. -/
theorem roundtrip_failing_input :
    buildPatches barePod nodeSelectorNamespace =
      [{ Op := "replace", Path := "/spec/nodeSelector",
         Value := .stringMap [("disktype", "ssd"), ("zone", "us")] }] ∧
    applyPatch barePod (buildPatches barePod nodeSelectorNamespace) = none := by
  decide

/-- C5: a Pod request whose body deserializes and whose namespace is fetched, in a
namespace with none of the three annotations, is answered with `Allowed = true` and
the empty patch sequence, whatever the Pod is. -/
theorem mutate_without_annotations (h : webhook) (a : AdmissionReview) (req : AdmissionRequest)
    (pod : Pod) (clientset : String → Option Namespace) (ns : Namespace)
    (hreq : a.Request = some req) (hkind : req.Kind.Kind = "Pod")
    (hpod : h.unmarshalPod req.Object.Raw = some pod)
    (hclient : h.restconfig = some clientset) (hns : clientset req.Namespace = some ns)
    (hnode : GoMap.lookup ns.Annotations NodeSelectorAnnotation = none)
    (hanti : GoMap.lookup ns.Annotations AntiAffinityAnnotation = none)
    (hspread : GoMap.lookup ns.Annotations TopologySpreadConstraintAnnotation = none) :
    mutate h a =
      .ok (some {
        UID := ""
        Allowed := true
        Result := none
        Patch := some []
        PatchType := some "JSONPatch" }) := by
  have hb : buildPatches pod ns = [] := by
    simp [buildPatches, nodeSelectorPass, antiAffinityPass, topologySpreadPass, hnode, hanti,
      hspread]
  simp [mutate, hreq, hkind, hpod, hclient, hns, hb, PatchTypeJSONPatch]

/-- C5 at a Pod that has a node selector, in a namespace without annotations. -/
theorem mutate_without_annotations_witness :
    mutate (clusterWebhook plainNamespace { Request := some podRequest, Response := none })
        { Request := some podRequest, Response := none } =
      .ok (some {
        UID := ""
        Allowed := true
        Result := none
        Patch := some []
        PatchType := some "JSONPatch" }) :=
  mutate_without_annotations
    (clusterWebhook plainNamespace { Request := some podRequest, Response := none })
    { Request := some podRequest, Response := none } podRequest examplePod
    (fun name => if name = "team-a" then some plainNamespace else none) plainNamespace
    rfl (by decide) (by decide) rfl (by decide) (by decide) (by decide) (by decide)

/-- C6: a request whose Kind is not `Pod` is answered with `Allowed = true`, a nil
patch and a nil patch type; the answer is the same for every handler, object body
and namespace. -/
theorem mutate_non_pod (h : webhook) (a : AdmissionReview) (req : AdmissionRequest)
    (hreq : a.Request = some req) (hkind : req.Kind.Kind ≠ "Pod") :
    mutate h a =
      .ok (some {
        UID := ""
        Allowed := true
        Result := none
        Patch := none
        PatchType := none }) := by
  simp [mutate, hreq, hkind]

/-- C6 at a Deployment, with a handler that has no cluster to ask. -/
theorem mutate_non_pod_witness :
    mutate { restconfig := none, deserializer := fun _ => (⟨none, none⟩, none),
             unmarshalPod := fun _ => none }
        { Request := some deploymentRequest, Response := none } =
      .ok (some {
        UID := ""
        Allowed := true
        Result := none
        Patch := none
        PatchType := none }) :=
  mutate_non_pod _ { Request := some deploymentRequest, Response := none } deploymentRequest
    rfl (by decide)

/-- C7 refuted: a decodable Pod review whose object does not deserialize. `mutate`
returns the nil response, and the envelope written carries no response, hence no
UID equal to the UID of the request. -/
theorem uid_echo_counterexample :
    (clusterWebhook plainNamespace { Request := some brokenPodRequest, Response := none }).deserializer
        reviewRequest.body =
      ({ Request := some brokenPodRequest, Response := none }, none) ∧
    ServeHTTP (clusterWebhook plainNamespace { Request := some brokenPodRequest, Response := none })
        reviewRequest =
      .ok (.review { Request := none, Response := none }) ∧
    ¬ ∃ out resp,
      ServeHTTP (clusterWebhook plainNamespace { Request := some brokenPodRequest, Response := none })
          reviewRequest = .ok (.review out) ∧
      out.Response = some resp ∧ resp.UID = brokenPodRequest.UID := by
  refine ⟨rfl, rfl, ?_⟩
  rintro ⟨out, resp, h1, h2, _⟩
  have h : ServeHTTP
      (clusterWebhook plainNamespace { Request := some brokenPodRequest, Response := none })
      reviewRequest = .ok (.review { Request := none, Response := none }) := rfl
  rw [h] at h1
  injection h1 with h1
  injection h1 with h1
  subst h1
  simp at h2

/-- C7 as amended: for a body that decodes to an envelope with a request, on the
paths where `mutate` returns a response (the Kind is not `Pod`, or the Pod
deserializes and its namespace is fetched) the envelope written carries a response
whose UID is the UID of the request, and no request; when the Kind is `Pod` and the
Pod does not deserialize or the namespace lookup fails, the envelope written carries
as response exactly what the incoming envelope carried, unchanged. -/
theorem uid_echo (h : webhook) (r : HTTPRequest) (ar : AdmissionReview)
    (req : AdmissionRequest)
    (hct : r.contentType = "application/json") (hbody : r.body.length ≠ 0)
    (hdec : h.deserializer r.body = (ar, none)) (hreq : ar.Request = some req) :
    ((req.Kind.Kind ≠ "Pod" ∨
        ∃ pod clientset ns, h.unmarshalPod req.Object.Raw = some pod ∧
          h.restconfig = some clientset ∧ clientset req.Namespace = some ns) →
      ∃ out resp, ServeHTTP h r = .ok (.review out) ∧ out.Request = none ∧
        out.Response = some resp ∧ resp.UID = req.UID) ∧
    (req.Kind.Kind = "Pod" →
      (h.unmarshalPod req.Object.Raw = none ∨ h.restconfig = none ∨
        ∃ clientset, h.restconfig = some clientset ∧ clientset req.Namespace = none) →
      ServeHTTP h r = .ok (.review { Request := none, Response := ar.Response })) := by
  constructor
  · intro hpath
    rcases hpath with hkind | ⟨pod, clientset, ns, hpod, hclient, hns⟩
    · refine ⟨{ Request := none, Response := some { Allowed := true, UID := req.UID } }, _, ?_,
        rfl, rfl, rfl⟩
      simp [ServeHTTP, hct, hbody, hdec, mutate, hreq, hkind, assemble]
    · by_cases hkind : req.Kind.Kind = "Pod"
      · refine ⟨{ Request := none, Response := some {
            Allowed := true
            Patch := some (buildPatches pod ns)
            PatchType := some PatchTypeJSONPatch
            UID := req.UID } }, _, ?_, rfl, rfl, rfl⟩
        simp [ServeHTTP, hct, hbody, hdec, mutate, hreq, hkind, hpod, hclient, hns, assemble]
      · refine ⟨{ Request := none, Response := some { Allowed := true, UID := req.UID } }, _,
          ?_, rfl, rfl, rfl⟩
        simp [ServeHTTP, hct, hbody, hdec, mutate, hreq, hkind, assemble]
  · intro hkind hfail
    have hm : mutate h ar = .ok none := by
      rcases hfail with hpod | hclient | ⟨clientset, hclient, hns⟩
      · simp [mutate, hreq, hkind, hpod]
      · cases hpod : h.unmarshalPod req.Object.Raw <;>
          simp [mutate, hreq, hkind, hpod, hclient]
      · cases hpod : h.unmarshalPod req.Object.Raw <;>
          simp [mutate, hreq, hkind, hpod, hclient, hns]
    simp [ServeHTTP, hct, hbody, hdec, hm, assemble]

/-- C7 as amended, at a Pod request that is mutated and at a Pod request whose
object does not deserialize, the incoming envelope carrying a response object. -/
theorem uid_echo_witness :
    (∃ out resp,
      ServeHTTP (clusterWebhook nodeSelectorNamespace
          { Request := some podRequest, Response := none }) reviewRequest =
        .ok (.review out) ∧
      out.Request = none ∧ out.Response = some resp ∧ resp.UID = podRequest.UID) ∧
    ServeHTTP (clusterWebhook nodeSelectorNamespace
        { Request := some brokenPodRequest, Response := some staleResponse }) reviewRequest =
      .ok (.review { Request := none, Response := some staleResponse }) :=
  ⟨(uid_echo
      (clusterWebhook nodeSelectorNamespace { Request := some podRequest, Response := none })
      reviewRequest { Request := some podRequest, Response := none } podRequest
      (by decide) (by decide) rfl rfl).1
    (Or.inr ⟨examplePod,
      fun name => if name = "team-a" then some nodeSelectorNamespace else none,
      nodeSelectorNamespace, by decide, rfl, by decide⟩),
   (uid_echo
      (clusterWebhook nodeSelectorNamespace
        { Request := some brokenPodRequest, Response := some staleResponse })
      reviewRequest { Request := some brokenPodRequest, Response := some staleResponse }
      brokenPodRequest (by decide) (by decide) rfl rfl).2 (by decide) (Or.inl (by decide))⟩

/-- C8 refuted: the three annotations are present without a usable token (`a=b=c`,
the empty string and `,`), and `mutate` still emits the `replace` at
`/spec/nodeSelector`, three operations under `/spec/affinity` and one at
`/spec/topologySpreadConstraints`. -/
theorem tokenless_pass_counterexample :
    (∀ token ∈ Split "a=b=c" ',', wellFormed token = false) ∧
    (∀ token ∈ Split "" ',', token = "") ∧
    (∀ token ∈ Split "," ',', token = "") ∧
    buildPatches examplePod tokenlessNamespace =
      [{ Op := "replace", Path := "/spec/nodeSelector", Value := .stringMap [("env", "prod")] },
       { Op := "add", Path := "/spec/affinity", Value := .emptyObject },
       { Op := "add", Path := "/spec/affinity/podAntiAffinity", Value := .emptyObject },
       { Op := "add"
         Path := "/spec/affinity/podAntiAffinity/requiredDuringSchedulingIgnoredDuringExecution"
         Value := .emptyArray },
       { Op := "add", Path := "/spec/topologySpreadConstraints", Value := .emptyArray }] := by
  decide

/-- C8 as amended: a pass contributes operations only when its annotation is
present: without the annotation no operation of the patch has a path of the pass.
A present annotation without usable token can still contribute.  With the node
selector annotation present but without well-formed token the patch starts with the
one `replace` at `/spec/nodeSelector`, carrying the Pod's own node selector (the
empty map when it has none).  With the anti-affinity annotation present but only
empty tokens the pass emits the `add` of each absent level (none when all three
levels are there) and nothing else; with the topology spread annotation present but
only empty tokens the pass emits the `add` of the empty array when the Pod has no
constraints (nothing when it has) and nothing else. -/
theorem pass_gating (pod : Pod) (ns : Namespace) :
    (GoMap.lookup ns.Annotations NodeSelectorAnnotation = none →
      ∀ p ∈ buildPatches pod ns, p.Path ≠ "/spec/nodeSelector") ∧
    (GoMap.lookup ns.Annotations AntiAffinityAnnotation = none →
      ∀ p ∈ buildPatches pod ns, p.Path ∉ affinityPaths) ∧
    (GoMap.lookup ns.Annotations TopologySpreadConstraintAnnotation = none →
      ∀ p ∈ buildPatches pod ns, p.Path ∉ spreadPaths) ∧
    (∀ value, GoMap.lookup ns.Annotations NodeSelectorAnnotation = some value →
      (∀ token ∈ Split value ',', wellFormed token = false) →
      ∃ rest,
        buildPatches pod ns =
          { Op := "replace", Path := "/spec/nodeSelector"
            Value := .stringMap
              (match pod.Spec.NodeSelector with
                | some m => m
                | none => []) } :: rest ∧
        ∀ p ∈ rest, p.Path ≠ "/spec/nodeSelector") ∧
    (∀ value, GoMap.lookup ns.Annotations AntiAffinityAnnotation = some value →
      (∀ token ∈ Split value ',', token = "") →
      ∃ before after,
        buildPatches pod ns =
          before ++
          ((if pod.Spec.Affinity = none then
              [{ Op := "add", Path := "/spec/affinity", Value := .emptyObject }]
            else []) ++
           (if pod.Spec.Affinity.bind (fun a => a.PodAntiAffinity) = none then
              [{ Op := "add", Path := "/spec/affinity/podAntiAffinity", Value := .emptyObject }]
            else []) ++
           (if (pod.Spec.Affinity.bind (fun a => a.PodAntiAffinity)).bind
                (fun p => p.RequiredDuringSchedulingIgnoredDuringExecution) = none then
              [{ Op := "add"
                 Path :=
                   "/spec/affinity/podAntiAffinity/requiredDuringSchedulingIgnoredDuringExecution"
                 Value := .emptyArray }]
            else [])) ++
          after ∧
        (∀ p ∈ before, p.Path ∉ affinityPaths) ∧ (∀ p ∈ after, p.Path ∉ affinityPaths)) ∧
    (∀ value, GoMap.lookup ns.Annotations TopologySpreadConstraintAnnotation = some value →
      (∀ token ∈ Split value ',', token = "") →
      ∃ before,
        buildPatches pod ns =
          before ++
          (if pod.Spec.TopologySpreadConstraints = none then
            [{ Op := "add", Path := "/spec/topologySpreadConstraints", Value := .emptyArray }]
          else []) ∧
        ∀ p ∈ before, p.Path ∉ spreadPaths) := by
  have hnodeAff : ∀ p ∈ nodeSelectorPass pod ns [], p.Path ∉ affinityPaths := by
    intro p hp
    rw [nodeSelectorPass_path pod ns p hp]; decide
  have hnodeSpread : ∀ p ∈ nodeSelectorPass pod ns [], p.Path ∉ spreadPaths := by
    intro p hp
    rw [nodeSelectorPass_path pod ns p hp]; decide
  have haffNode : ∀ p ∈ antiAffinityPass pod ns [], p.Path ≠ "/spec/nodeSelector" := by
    intro p hp
    rcases antiAffinityPass_path pod ns p hp with e | e | e | e <;> rw [e] <;> decide
  have haffSpread : ∀ p ∈ antiAffinityPass pod ns [], p.Path ∉ spreadPaths := by
    intro p hp
    rcases antiAffinityPass_path pod ns p hp with e | e | e | e <;> rw [e] <;> decide
  have hspreadNode : ∀ p ∈ topologySpreadPass pod ns [], p.Path ≠ "/spec/nodeSelector" := by
    intro p hp
    rcases topologySpreadPass_path pod ns p hp with e | e <;> rw [e] <;> decide
  have hspreadAff : ∀ p ∈ topologySpreadPass pod ns [], p.Path ∉ affinityPaths := by
    intro p hp
    rcases topologySpreadPass_path pod ns p hp with e | e <;> rw [e] <;> decide
  refine ⟨?_, ?_, ?_, ?_, ?_, ?_⟩
  · intro hnone p hp
    rw [buildPatches_eq] at hp
    have hempty : nodeSelectorPass pod ns [] = [] := by simp [nodeSelectorPass, hnone]
    rw [hempty, List.nil_append] at hp
    rcases List.mem_append.mp hp with h | h
    · exact haffNode p h
    · exact hspreadNode p h
  · intro hnone p hp
    rw [buildPatches_eq] at hp
    have hempty : antiAffinityPass pod ns [] = [] := by simp [antiAffinityPass, hnone]
    rw [hempty, List.nil_append] at hp
    rcases List.mem_append.mp hp with h | h
    · exact hnodeAff p h
    · exact hspreadAff p h
  · intro hnone p hp
    rw [buildPatches_eq] at hp
    have hempty : topologySpreadPass pod ns [] = [] := by simp [topologySpreadPass, hnone]
    rw [hempty, List.append_nil] at hp
    rcases List.mem_append.mp hp with h | h
    · exact hnodeSpread p h
    · exact haffSpread p h
  · intro value hvalue htokens
    refine ⟨antiAffinityPass pod ns [] ++ topologySpreadPass pod ns [], ?_, ?_⟩
    · rw [buildPatches_eq]
      simp only [nodeSelectorPass, hvalue, List.nil_append, List.singleton_append,
        foldl_storeSelector_of_malformed _ _ htokens]
      cases pod.Spec.NodeSelector <;> rfl
    · intro p hp
      rcases List.mem_append.mp hp with h | h
      · exact haffNode p h
      · exact hspreadNode p h
  · intro value hvalue htokens
    refine ⟨nodeSelectorPass pod ns [], topologySpreadPass pod ns [], ?_, hnodeAff, hspreadAff⟩
    rw [buildPatches_eq, List.append_assoc (nodeSelectorPass pod ns [])]
    congr 2
    unfold antiAffinityPass
    simp only [hvalue, foldl_appendAffinityTerm, podAntiAffinityIsNil_iff,
      requiredTermsIsNil_iff, List.nil_append, filter_nonEmpty_of_empty _ htokens, List.map_nil,
      List.append_nil]
    split_ifs <;> simp
  · intro value hvalue htokens
    refine ⟨nodeSelectorPass pod ns [] ++ antiAffinityPass pod ns [], ?_, ?_⟩
    · rw [buildPatches_eq, List.append_assoc]
      congr 2
      unfold topologySpreadPass
      simp only [hvalue, foldl_appendSpreadConstraint, List.nil_append,
        filter_nonEmpty_of_empty _ htokens, List.map_nil, List.append_nil]
    · intro p hp
      rcases List.mem_append.mp hp with h | h
      · exact hnodeSpread p h
      · exact haffSpread p h

/-- C8 as amended, at annotations without usable token and at a namespace without
annotations. -/
theorem pass_gating_witness :
    (∀ p ∈ buildPatches examplePod plainNamespace, p.Path ≠ "/spec/nodeSelector") ∧
    (∀ p ∈ buildPatches examplePod plainNamespace, p.Path ∉ affinityPaths) ∧
    (∀ p ∈ buildPatches examplePod plainNamespace, p.Path ∉ spreadPaths) ∧
    (∃ rest,
      buildPatches examplePod tokenlessNamespace =
        { Op := "replace", Path := "/spec/nodeSelector"
          Value := .stringMap [("env", "prod")] } :: rest ∧
      ∀ p ∈ rest, p.Path ≠ "/spec/nodeSelector") ∧
    (∃ before after,
      buildPatches examplePod tokenlessNamespace =
        before ++
        [{ Op := "add", Path := "/spec/affinity", Value := .emptyObject },
         { Op := "add", Path := "/spec/affinity/podAntiAffinity", Value := .emptyObject },
         { Op := "add"
           Path := "/spec/affinity/podAntiAffinity/requiredDuringSchedulingIgnoredDuringExecution"
           Value := .emptyArray }] ++
        after ∧
      (∀ p ∈ before, p.Path ∉ affinityPaths) ∧ (∀ p ∈ after, p.Path ∉ affinityPaths)) ∧
    (∃ before,
      buildPatches examplePod tokenlessNamespace =
        before ++
        [{ Op := "add", Path := "/spec/topologySpreadConstraints", Value := .emptyArray }] ∧
      ∀ p ∈ before, p.Path ∉ spreadPaths) :=
  ⟨(pass_gating examplePod plainNamespace).1 (by decide),
   (pass_gating examplePod plainNamespace).2.1 (by decide),
   (pass_gating examplePod plainNamespace).2.2.1 (by decide),
   (pass_gating examplePod tokenlessNamespace).2.2.2.1 "a=b=c" (by decide) (by decide),
   (pass_gating examplePod tokenlessNamespace).2.2.2.2.1 "" (by decide) (by decide),
   (pass_gating examplePod tokenlessNamespace).2.2.2.2.2 "," (by decide) (by decide)⟩

/-- C9 refuted: the incoming envelope of a Pod review already holds a response
object and the Pod body does not deserialize. `mutate` returns the nil response and
the envelope written still holds the incoming response object. -/
theorem failure_response_counterexample :
    mutate (clusterWebhook plainNamespace
        { Request := some brokenPodRequest, Response := some staleResponse })
      { Request := some brokenPodRequest, Response := some staleResponse } = .ok none ∧
    ServeHTTP (clusterWebhook plainNamespace
        { Request := some brokenPodRequest, Response := some staleResponse }) reviewRequest =
      .ok (.review { Request := none, Response := some staleResponse }) ∧
    ¬ ∃ out,
      ServeHTTP (clusterWebhook plainNamespace
          { Request := some brokenPodRequest, Response := some staleResponse }) reviewRequest =
        .ok (.review out) ∧
      out.Response = none := by
  refine ⟨rfl, rfl, ?_⟩
  rintro ⟨out, h1, h2⟩
  have h : ServeHTTP (clusterWebhook plainNamespace
      { Request := some brokenPodRequest, Response := some staleResponse }) reviewRequest =
      .ok (.review { Request := none, Response := some staleResponse }) := rfl
  rw [h] at h1
  injection h1 with h1
  injection h1 with h1
  subst h1
  simp at h2

/-- C9 as amended: for a decodable Pod review whose Pod body does not deserialize
or whose namespace lookup fails, `mutate` returns the nil response and the envelope
written has no request and, as response, whatever the incoming envelope carried:
none when it carried none. -/
theorem failure_keeps_incoming_response (h : webhook) (r : HTTPRequest) (ar : AdmissionReview)
    (req : AdmissionRequest)
    (hct : r.contentType = "application/json") (hbody : r.body.length ≠ 0)
    (hdec : h.deserializer r.body = (ar, none)) (hreq : ar.Request = some req)
    (hkind : req.Kind.Kind = "Pod")
    (hfail : h.unmarshalPod req.Object.Raw = none ∨ h.restconfig = none ∨
      ∃ clientset, h.restconfig = some clientset ∧ clientset req.Namespace = none) :
    mutate h ar = .ok none ∧
    ServeHTTP h r = .ok (.review { Request := none, Response := ar.Response }) ∧
    (ar.Response = none →
      ServeHTTP h r = .ok (.review { Request := none, Response := none })) := by
  have hm : mutate h ar = .ok none := by
    rcases hfail with hpod | hclient | ⟨clientset, hclient, hns⟩
    · simp [mutate, hreq, hkind, hpod]
    · cases hpod : h.unmarshalPod req.Object.Raw <;> simp [mutate, hreq, hkind, hpod, hclient]
    · cases hpod : h.unmarshalPod req.Object.Raw <;>
        simp [mutate, hreq, hkind, hpod, hclient, hns]
  have hs : ServeHTTP h r = .ok (.review { Request := none, Response := ar.Response }) := by
    simp [ServeHTTP, hct, hbody, hdec, hm, assemble]
  refine ⟨hm, hs, ?_⟩
  intro hnone
  rw [hs, hnone]

/-- C9 as amended, at a Pod review whose namespace does not exist. -/
theorem failure_keeps_incoming_response_witness :
    mutate (clusterWebhook plainNamespace
        { Request := some { podRequest with Namespace := "team-b" }, Response := none })
      { Request := some { podRequest with Namespace := "team-b" }, Response := none } =
      .ok none ∧
    ServeHTTP (clusterWebhook plainNamespace
        { Request := some { podRequest with Namespace := "team-b" }, Response := none })
      reviewRequest =
      .ok (.review { Request := none, Response := none }) ∧
    ((none : Option AdmissionResponse) = none →
      ServeHTTP (clusterWebhook plainNamespace
          { Request := some { podRequest with Namespace := "team-b" }, Response := none })
        reviewRequest =
        .ok (.review { Request := none, Response := none })) :=
  failure_keeps_incoming_response
    (clusterWebhook plainNamespace
      { Request := some { podRequest with Namespace := "team-b" }, Response := none })
    reviewRequest
    { Request := some { podRequest with Namespace := "team-b" }, Response := none }
    { podRequest with Namespace := "team-b" }
    (by decide) (by decide) rfl rfl (by decide)
    (Or.inr (Or.inr ⟨fun name => if name = "team-a" then some plainNamespace else none, rfl,
      by decide⟩))

/-- C10, the failing input: on an envelope without request `mutate` reads `Kind`
through the nil pointer and panics, for every handler and incoming response; the
panic leaves `ServeHTTP`. -/
theorem mutate_nil_request (h : webhook) (response : Option AdmissionResponse) :
    mutate h { Request := none, Response := response } = .error .nilDereference ∧
    ServeHTTP (clusterWebhook plainNamespace { Request := none, Response := none })
      reviewRequest = .error .nilDereference :=
  ⟨rfl, rfl⟩

end PartitionerWebhook
